import Mathlib

/-
Verification of the linuxdo-nin check-in script (src/main.py).
The stateful Python code is shallowly embedded: the cache file store is an
association list from file names to entries, the Cloudflare polling loop is a
recursion over a trace of per-iteration observations (page title, sleep
duration, whether the iteration raised), exceptions are modelled with
`Except` or explicit flags, and wall-clock time is an explicit accumulator.
-/

namespace LinuxdoNin

/-- Substring membership test mirroring the Python `in` operator on strings:
for a nonempty pattern, `s.splitOn pat` has more than one part exactly when
`pat` occurs in `s`. -/
def containsSubstr (s pat : String) : Bool :=
  (s.splitOn pat).length != 1

/-- Title check used by `CloudflareHandler.handle_cloudflare` (main.py lines
186, 200, 220): the page has loaded when the title is not exactly the
interstitial title and does not contain the word Checking. -/
def cfTitleOk (t : String) : Bool :=
  (t != "请稍候…") && !(containsSubstr t "Checking")

/-- Title check used by `check_login_status` (main.py line 474): substring
tests on both markers. -/
def loginTitleOk (t : String) : Bool :=
  !(containsSubstr t "请稍候") && !(containsSubstr t "Checking")

/-- Cookie entry; `expires` is `none` when the key is absent, matching the
Python dict access `cookie.get(\x27expires\x27, 0)` which defaults to 0. -/
structure Cookie where
  name : String
  expires : Option Int
deriving Repr, DecidableEq

/-- Expiry test from `is_cf_cookie_valid` (main.py line 150): the cookie is
good when `expires == -1` or `expires > time.time()`. -/
def cf_expiry_ok (e now : Int) : Bool :=
  (e == -1) || decide (now < e)

/-- Embedding of `CloudflareHandler.is_cf_cookie_valid` (main.py 144-154):
scan the cookie list for an entry named cf_clearance whose expiry is ok;
return true at the first hit, false when the loop finishes. -/
def is_cf_cookie_valid (cookies : List Cookie) (now : Int) : Bool :=
  cookies.any (fun c => (c.name == "cf_clearance") && cf_expiry_ok (c.expires.getD 0) now)

/-- Observation of one iteration of the polling loop in `handle_cloudflare`
(main.py 194-216): whether reading the page raised, the page title read, and
the randomized sleep duration `random.uniform(8, 15)` drawn this iteration. -/
structure PollStep where
  raises : Bool
  title : String
  wait : Nat
deriving Repr, DecidableEq

/-- Result of running the polling loop: whether a pass was detected inside
the loop, how many iterations ran, and the elapsed wall-clock accumulator on
exit. -/
structure PollOut where
  passed : Bool
  iters : Nat
  elapsed : Nat
deriving Repr, DecidableEq

/-- Embedding of the `for attempt in range(max_attempts)` loop of
`handle_cloudflare` (main.py 194-216), iterating over the trace of
observations. A raising iteration sleeps 10 seconds and skips the timeout
check; a normal iteration returns success when the title is ok, otherwise
sleeps its drawn duration and breaks when the accumulated time exceeds the
timeout. -/
def pollIter : List PollStep → Nat → Nat → PollOut
  | [], e, _ => ⟨false, 0, e⟩
  | s :: rest, e, t =>
    if s.raises then
      ⟨(pollIter rest (e + 10) t).passed, (pollIter rest (e + 10) t).iters + 1,
        (pollIter rest (e + 10) t).elapsed⟩
    else if cfTitleOk s.title then ⟨true, 1, e⟩
    else if e + s.wait > t then ⟨false, 1, e + s.wait⟩
    else
      ⟨(pollIter rest (e + s.wait) t).passed, (pollIter rest (e + s.wait) t).iters + 1,
        (pollIter rest (e + s.wait) t).elapsed⟩

/-- Environment for one call of `handle_cloudflare`: the result of
`CacheManager.load_cookies()`, the current clock at the validity check, the
behaviour of the cached-cookie navigation attempt, the wall-clock time spent
before the polling loop starts, the trace of loop iterations, and the page
title at the final check. -/
structure CfEnv where
  cachedCookies : Option (List Cookie)
  now : Int
  cachedNavRaises : Bool
  cachedNavTitle : String
  preElapsed : Nat
  steps : List PollStep
  finalTitle : String

/-- Result of `handle_cloudflare`: the returned boolean, whether the cached
short-circuit produced the return, whether the final check still saw the
interstitial (the unresolved soft-fail branch at main.py 224-225), and the
polling-loop statistics. -/
structure CfResult where
  result : Bool
  usedCache : Bool
  unresolved : Bool
  pollIters : Nat
  pollElapsed : Nat
deriving Repr, DecidableEq

/-- Embedding of `CloudflareHandler.handle_cloudflare` (main.py 157-225).
The cached short-circuit fires when the clearance cookie is valid, the
cookie list is truthy, the navigation does not raise, and the resulting
title is ok; otherwise the bounded polling loop runs, followed by the final
check whose both branches return true. -/
def handle_cloudflare (env : CfEnv) (max_attempts timeout : Nat) : CfResult :=
  if is_cf_cookie_valid (env.cachedCookies.getD []) env.now
      && !(env.cachedCookies.getD []).isEmpty
      && !env.cachedNavRaises
      && cfTitleOk env.cachedNavTitle then
    ⟨true, true, false, 0, env.preElapsed⟩
  else
    if (pollIter (env.steps.take max_attempts) env.preElapsed timeout).passed then
      ⟨true, false, false, (pollIter (env.steps.take max_attempts) env.preElapsed timeout).iters,
        (pollIter (env.steps.take max_attempts) env.preElapsed timeout).elapsed⟩
    else if cfTitleOk env.finalTitle then
      ⟨true, false, false, (pollIter (env.steps.take max_attempts) env.preElapsed timeout).iters,
        (pollIter (env.steps.take max_attempts) env.preElapsed timeout).elapsed⟩
    else
      ⟨true, false, true, (pollIter (env.steps.take max_attempts) env.preElapsed timeout).iters,
        (pollIter (env.steps.take max_attempts) env.preElapsed timeout).elapsed⟩

/-- Wrapper document written by `CacheManager.save_cache` (main.py 97-102):
the payload under the key data, plus `cache_timestamp`, `cache_version` and
`file_created` metadata. The payload type is abstract since the Python code
treats it as an uninterpreted JSON value. -/
structure CacheDoc (α : Type) where
  data : α
  cache_timestamp : String
  cache_version : String
  file_created : Int
deriving Repr, DecidableEq

/-- Content of a cache file on disk as seen by `json.load`: a wrapper
document, a bare JSON value without the data key (handled by
`data.get(\x27data\x27, data)` at main.py line 86), or bytes that fail to
deserialize. -/
inductive FileContent (α : Type)
  | wrapped (doc : CacheDoc α)
  | raw (payload : α)
  | corrupt
deriving Repr, DecidableEq

/-- File entry: the parseable content together with its modification time,
which `os.utime` sets after writing (main.py 107-108). -/
structure FileEntry (α : Type) where
  content : FileContent α
  mtime : Int
deriving Repr, DecidableEq

/-- Cache file store: file names mapped to entries, newest write first. -/
abbrev FS (α : Type) : Type := List (String × FileEntry α)

/-- Lookup of a file in the store. -/
def fsLookup (fs : FS α) (file : String) : Option (FileEntry α) :=
  (fs.find? (fun kv => kv.1 == file)).map (fun kv => kv.2)

/-- Write of a file: the new entry shadows and drops any previous one. -/
def fsInsert (fs : FS α) (file : String) (e : FileEntry α) : FS α :=
  (file, e) :: fs.filter (fun kv => kv.1 != file)

/-- Deletion of a file, as in `os.remove` guarded by `os.path.exists`
(main.py 393-394): removing an absent file is a no-op. -/
def fsRemove (fs : FS α) (file : String) : FS α :=
  fs.filter (fun kv => kv.1 != file)

/-- Embedding of `CacheManager.load_cache` (main.py 73-91). Returns the
loaded payload (or `none`) paired with whether a warning was logged: a
missing file yields `(none, false)` (only an info line), a deserialization
failure is caught and yields `(none, true)`, and a parsed document yields
its data field, defaulting to the whole document. -/
def load_cache (fs : FS α) (file : String) : Option α × Bool :=
  match fsLookup fs file with
  | none => (none, false)
  | some entry =>
    match entry.content with
    | FileContent.corrupt => (none, true)
    | FileContent.wrapped d => (some d.data, false)
    | FileContent.raw j => (some j, false)

/-- Embedding of `CacheManager.save_cache` (main.py 93-116). On a successful
write the wrapper document with fresh `ts`/`created` metadata and version
"1.0" is stored and the mtime is touched to `now`; the function returns
true. Any I/O failure (`ioOk = false`) is caught: the store is unchanged and
false is returned. -/
def save_cache (fs : FS α) (payload : α) (file ts : String) (created now : Int)
    (ioOk : Bool) : FS α × Bool :=
  if ioOk then
    (fsInsert fs file ⟨FileContent.wrapped ⟨payload, ts, "1.0", created⟩, now⟩, true)
  else
    (fs, false)

/-- Embedding of `LinuxDoBrowser.clear_caches` (main.py 388-401): both cache
files are deleted in order. -/
def clear_caches (fs : FS α) : FS α :=
  fsRemove (fsRemove fs "linuxdo_cookies.json") "linuxdo_session.json"

/-- Python truthiness of an optional environment string: `not USERNAME` is
true when the variable is unset or empty. -/
def pyTruthy (o : Option String) : Bool :=
  match o with
  | none => false
  | some s => s != ""

/-- Embedding of `LinuxDoBrowser.run` (main.py 792-797) restricted to its
exit decision: a failed login clears both caches and exits with code 1
(`some 1`); otherwise the run continues (`none`) and the process later ends
normally. -/
def run_exit (loginOk : Bool) (fs : FS α) : FS α × Option Nat :=
  if loginOk then (fs, none) else (clear_caches fs, some 1)

/-- Embedding of the `__main__` guard (main.py 839-847) combined with
`run`: missing or empty credentials exit with code 1 before any browser
work; otherwise the run executes and a completed run exits with code 0. -/
def main_exit (username password : Option String) (loginOk : Bool) (fs : FS α) :
    FS α × Nat :=
  if !(pyTruthy username) || !(pyTruthy password) then (fs, 1)
  else
    match run_exit loginOk fs with
    | (fs2, some c) => (fs2, c)
    | (fs2, none) => (fs2, 0)

/-- Result of one decorated call under `retry_decorator` (main.py 19-37):
the value returned to the caller (`none` when every attempt raised), the
number of 1-second backoff sleeps performed, and whether the final-failure
error line was logged. -/
structure RetryOut (α : Type) where
  value : Option α
  sleeps : Nat
  finalLogged : Bool
deriving Repr, DecidableEq

/-- Embedding of the attempt loop of `retry_decorator` over the list of
attempt behaviours (a value or a raised exception message per attempt). A
success returns immediately; a failure sleeps one second (also after the
last attempt), logs the final error line exactly when no attempts remain
(`attempt == retries - 1`), and continues. When the loop ends the wrapper
returns None. -/
def retryRun : List (Except String α) → RetryOut α
  | [] => ⟨none, 0, false⟩
  | Except.ok v :: _ => ⟨some v, 0, false⟩
  | Except.error _ :: rest =>
    ⟨(retryRun rest).value, (retryRun rest).sleeps + 1,
      rest.isEmpty || (retryRun rest).finalLogged⟩

/-- Embedding of a function wrapped by `retry_decorator(retries)` applied to
one call: `f i` is the behaviour of attempt `i` and the loop ranges over
`range(retries)`. The default is `retries = 3`, the value used on
`click_one_topic` (main.py 611). The result type shows the wrapper never
propagates an exception. -/
def retry_decorator (retries : Nat) (f : Nat → Except String α) : RetryOut α :=
  retryRun ((List.range retries).map f)

/-- Embedding of the per-topic loop of `click_topic` (main.py 596-609):
every selected topic is visited through the retry wrapper, and since the
wrapper returns a value rather than raising, the loop reaches every topic. -/
def click_topic_results (topics : List String)
    (visit : String → Nat → Except String Unit) : List (RetryOut Unit) :=
  topics.map (fun t => retry_decorator 3 (visit t))

/-- Embedding of the browse-history update in `click_topic` (main.py
601-603): append the visited URL and keep only the last 50 entries, as
Python `browse_history[-50:]` does. -/
def update_browse_history (h : List String) (url : String) : List String :=
  (h ++ [url]).drop ((h ++ [url]).length - 50)

/-- Outcome of probing one DOM selector in `check_login_status`: the element
was found, it was absent, or the probe raised (caught by the per-selector
`except Exception: continue`). -/
inductive ProbeResult
  | found
  | notFound
  | raised
deriving Repr, DecidableEq

/-- Page state consumed by one call of `check_login_status` (main.py
439-488): the probe outcomes for the user-indicator selectors and the
login-button selectors, the result the `verify_username` helper would
return, the page title, the page HTML, the configured username, and whether
some probing step raised outside the per-selector handlers (caught by the
outer handler at main.py 486-488). -/
structure LoginPage where
  userSelectors : List ProbeResult
  verifyResult : Bool
  loginSelectors : List ProbeResult
  title : String
  content : String
  username : String
  outerRaise : Bool

/-- Check whether any probe in the list found its element. -/
def anyFound (l : List ProbeResult) : Bool :=
  l.any (fun r => r == ProbeResult.found)

/-- Normalization replacing a raised probe by an absent one; the code treats
both identically (`continue`). -/
def dropRaised (r : ProbeResult) : ProbeResult :=
  match r with
  | ProbeResult.raised => ProbeResult.notFound
  | x => x

/-- Embedding of `LinuxDoBrowser.check_login_status` (main.py 439-488). An
exception outside the per-selector handlers returns false; a found user
indicator delegates to `verify_username`; a found login button returns
false; otherwise the fallback tier declares success only off the
interstitial and only when the page text contains the username
case-insensitively or the content exceeds 1000 characters; in every
remaining case the status defaults to not logged in. -/
def check_login_status (p : LoginPage) : Bool :=
  if p.outerRaise then false
  else if anyFound p.userSelectors then p.verifyResult
  else if anyFound p.loginSelectors then false
  else if loginTitleOk p.title then
    if containsSubstr p.content.toLower p.username.toLower then true
    else if p.content.length > 1000 then true
    else false
  else false

/-- Helper: looking up a freshly inserted file returns the new entry. -/
theorem fsLookup_fsInsert_self (fs : FS α) (file : String) (e : FileEntry α) :
    fsLookup (fsInsert fs file e) file = some e := by
  simp [fsLookup, fsInsert, List.find?]

/-- Helper: lookup on a nonempty store checks the head first. -/
theorem fsLookup_cons (kv : String × FileEntry α) (rest : FS α) (g : String) :
    fsLookup (kv :: rest) g = if kv.1 == g then some kv.2 else fsLookup rest g := by
  cases hgb : (kv.1 == g) <;> simp [fsLookup, List.find?, hgb]

/-- Helper: looking up a removed file returns nothing. -/
theorem fsLookup_fsRemove_self (fs : FS α) (file : String) :
    fsLookup (fsRemove fs file) file = none := by
  induction fs with
  | nil => rfl
  | cons kv rest ih =>
    simp only [fsRemove, List.filter_cons] at ih ⊢
    by_cases hk : (kv.1 != file) = true
    · have hg : (kv.1 == file) = false := by
        simpa [bne_iff_ne, beq_eq_false_iff_ne] using hk
      rw [if_pos hk, fsLookup_cons, hg]
      simpa using ih
    · rw [if_neg hk]
      exact ih

/-- Helper: removing one file leaves lookups of other files unchanged. -/
theorem fsLookup_fsRemove_ne (fs : FS α) (file g : String) (h : g ≠ file) :
    fsLookup (fsRemove fs file) g = fsLookup fs g := by
  induction fs with
  | nil => rfl
  | cons kv rest ih =>
    simp only [fsRemove, List.filter_cons] at ih ⊢
    by_cases hk : (kv.1 != file) = true
    · rw [if_pos hk, fsLookup_cons, fsLookup_cons, ih]
    · have hkf : kv.1 = file := by simpa [bne_iff_ne] using hk
      have hg : (kv.1 == g) = false := by
        rw [hkf]
        exact beq_eq_false_iff_ne.mpr (fun hfg => h hfg.symm)
      rw [if_neg hk, ih, fsLookup_cons, hg]
      simp

/-- Helper: treating raised probes as absent does not change `anyFound`. -/
theorem anyFound_map_dropRaised (l : List ProbeResult) :
    anyFound (l.map dropRaised) = anyFound l := by
  induction l with
  | nil => rfl
  | cons r rest ih =>
    have hr : (dropRaised r == ProbeResult.found) = (r == ProbeResult.found) := by
      cases r <;> rfl
    simp only [anyFound, List.map_cons, List.any_cons] at ih ⊢
    rw [hr, ih]

/-- Helper: the polling loop runs at most one iteration per trace entry. -/
theorem pollIter_iters_le (steps : List PollStep) (e t : Nat) :
    (pollIter steps e t).iters ≤ steps.length := by
  induction steps generalizing e with
  | nil => simp [pollIter]
  | cons s rest ih =>
    simp only [pollIter, List.length_cons]
    split_ifs with h1 h2 h3
    · exact Nat.succ_le_succ (ih (e + 10))
    · simp
    · simp
    · exact Nat.succ_le_succ (ih (e + s.wait))

/-- Helper: on a trace without raising iterations whose sleeps stay within
the 15-second draw bound, the loop never accumulates more than one sleep
beyond the timeout: started at `e ≤ t`, it exits with elapsed at most
`t + 15`. -/
theorem pollIter_elapsed_le (steps : List PollStep) (e t : Nat)
    (h : ∀ s ∈ steps, s.raises = false ∧ s.wait ≤ 15) (he : e ≤ t) :
    (pollIter steps e t).elapsed ≤ t + 15 := by
  induction steps generalizing e with
  | nil =>
    simp only [pollIter]
    omega
  | cons s rest ih =>
    obtain ⟨hr, hw⟩ := h s (List.mem_cons_self s rest)
    have hrest : ∀ x ∈ rest, x.raises = false ∧ x.wait ≤ 15 :=
      fun x hx => h x (List.mem_cons_of_mem s hx)
    by_cases h3 : cfTitleOk s.title
    · simp [pollIter, hr, h3]
      omega
    · by_cases h4 : e + s.wait > t
      · simp [pollIter, hr, h3, h4]
        omega
      · simp [pollIter, hr, h3, h4]
        exact ih (e + s.wait) hrest (by omega)

/-- Helper: every iteration adds at most 15 seconds of sleep (a raising
iteration sleeps exactly 10), so the exit time is bounded by the entry time
plus 15 per iteration. -/
theorem pollIter_elapsed_sum (steps : List PollStep) (e t : Nat)
    (h : ∀ s ∈ steps, s.wait ≤ 15) :
    (pollIter steps e t).elapsed ≤ e + 15 * (pollIter steps e t).iters := by
  induction steps generalizing e with
  | nil => simp [pollIter]
  | cons s rest ih =>
    have hw : s.wait ≤ 15 := h s (List.mem_cons_self s rest)
    have hrest : ∀ x ∈ rest, x.wait ≤ 15 := fun x hx => h x (List.mem_cons_of_mem s hx)
    by_cases h1 : s.raises
    · have hrec := ih (e + 10) hrest
      simp only [pollIter, h1, if_pos]
      omega
    · by_cases h3 : cfTitleOk s.title
      · simp [pollIter, h1, h3]
        try omega
      · by_cases h4 : e + s.wait > t
        · simp [pollIter, h1, h3, h4]
          try omega
        · have hrec := ih (e + s.wait) hrest
          simp [pollIter, h1, h3, h4]
          omega

/-- Helper: `handle_cloudflare` either returns through the cached
short-circuit, or its polling statistics are those of the loop run on the
truncated trace. -/
theorem handle_cloudflare_cases (env : CfEnv) (a t : Nat) :
    handle_cloudflare env a t = ⟨true, true, false, 0, env.preElapsed⟩ ∨
    ((handle_cloudflare env a t).pollIters =
        (pollIter (env.steps.take a) env.preElapsed t).iters ∧
      (handle_cloudflare env a t).pollElapsed =
        (pollIter (env.steps.take a) env.preElapsed t).elapsed ∧
      (handle_cloudflare env a t).usedCache = false) := by
  unfold handle_cloudflare
  split_ifs <;> simp

/-- C10: for every input, `handle_cloudflare` returns true — including when
the final inspection still shows the interstitial (the unresolved soft-fail
branch) — so the verifier never reports failure and the false-result branch
in the login flow is unreachable. -/
theorem handle_cloudflare_always_true (env : CfEnv) (a t : Nat) :
    (handle_cloudflare env a t).result = true := by
  unfold handle_cloudflare
  split_ifs <;> rfl

/-- C6: the browse-history update appends the topic URL at the end and caps
the sequence at the 50 most recent entries: the result never exceeds 50
entries, an update of a sub-capacity history is a plain append, and an
update of a full history drops exactly the oldest entry. -/
theorem browse_history_cap (h : List String) (url : String) :
    (update_browse_history h url).length ≤ 50 ∧
    (h.length < 50 → update_browse_history h url = h ++ [url]) ∧
    (h.length = 50 → update_browse_history h url = h.tail ++ [url]) := by
  refine ⟨?_, ?_, ?_⟩
  · simp only [update_browse_history, List.length_drop]
    omega
  · intro hlt
    have hz : (h ++ [url]).length - 50 = 0 := by
      simp only [List.length_append, List.length_cons, List.length_nil]
      omega
    unfold update_browse_history
    rw [hz, List.drop_zero]
  · intro heq
    cases h with
    | nil => simp at heq
    | cons a tl =>
      have htl : tl.length = 49 := by simpa using heq
      have hone : ((a :: tl) ++ [url]).length - 50 = 1 := by
        simp [htl]
      unfold update_browse_history
      rw [hone]
      simp

/-- Witness for C6 at a full 50-entry history. -/
theorem browse_history_cap_witness :
    (update_browse_history (List.replicate 50 "a") "b").length ≤ 50 ∧
    update_browse_history (List.replicate 50 "a") "b" =
      (List.replicate 50 "a").tail ++ ["b"] :=
  ⟨(browse_history_cap (List.replicate 50 "a") "b").1,
    (browse_history_cap (List.replicate 50 "a") "b").2.2 (by simp)⟩

/-- C7: `load_cache` returns the stored payload when the file exists and
deserializes, and returns `none` — never raising to the caller — both when
the file is absent (without a warning) and when deserialization fails (with
a warning logged). -/
theorem load_cache_absent_or_corrupt (α : Type) (fs : FS α) (file : String) :
    (fsLookup fs file = none → load_cache fs file = (none, false)) ∧
    (∀ e : FileEntry α, fsLookup fs file = some e →
      e.content = FileContent.corrupt → load_cache fs file = (none, true)) ∧
    (∀ (e : FileEntry α) (d : CacheDoc α), fsLookup fs file = some e →
      e.content = FileContent.wrapped d → load_cache fs file = (some d.data, false)) ∧
    (∀ (e : FileEntry α) (j : α), fsLookup fs file = some e →
      e.content = FileContent.raw j → load_cache fs file = (some j, false)) := by
  refine ⟨?_, ?_, ?_, ?_⟩
  · intro h1
    simp [load_cache, h1]
  · intro e h1 h2
    simp [load_cache, h1, h2]
  · intro e d h1 h2
    simp [load_cache, h1, h2]
  · intro e j h1 h2
    simp [load_cache, h1, h2]

/-- Witness for C7: an absent cookies file loads as absent without warning,
and a corrupt one loads as absent with a warning. -/
theorem load_cache_absent_or_corrupt_witness :
    load_cache ([] : FS String) "linuxdo_cookies.json" = (none, false) ∧
    load_cache [("linuxdo_cookies.json",
        (⟨FileContent.corrupt, 0⟩ : FileEntry String))] "linuxdo_cookies.json" =
      (none, true) :=
  ⟨(load_cache_absent_or_corrupt String [] "linuxdo_cookies.json").1 rfl,
    (load_cache_absent_or_corrupt String
        [("linuxdo_cookies.json", ⟨FileContent.corrupt, 0⟩)]
        "linuxdo_cookies.json").2.1 ⟨FileContent.corrupt, 0⟩ rfl rfl⟩

/-- C8: a successful `save_cache` stores the wrapper document

`data`/`cache_timestamp`/`cache_version` 1.0/`file_created` with the mtime
touched to the write time and returns true; an I/O failure leaves the store
unchanged and returns false without propagating. -/
theorem save_cache_contract (α : Type) (fs : FS α) (payload : α) (file ts : String)
    (created now : Int) :
    (save_cache fs payload file ts created now true).2 = true ∧
    fsLookup (save_cache fs payload file ts created now true).1 file =
      some ⟨FileContent.wrapped ⟨payload, ts, "1.0", created⟩, now⟩ ∧
    save_cache fs payload file ts created now false = (fs, false) := by
  refine ⟨rfl, ?_, rfl⟩
  simpa [save_cache] using
    fsLookup_fsInsert_self fs file ⟨FileContent.wrapped ⟨payload, ts, "1.0", created⟩, now⟩

/-- C3: saving a payload and loading the same file back returns exactly the
saved payload, while the stored wrapper metadata (`cache_timestamp`,
`cache_version`, `file_created`) is the fresh metadata of this save and is
not part of what load returns. -/
theorem cache_roundtrip (α : Type) (fs : FS α) (payload : α) (file ts : String)
    (created now : Int) :
    (load_cache (save_cache fs payload file ts created now true).1 file).1 =
      some payload ∧
    fsLookup (save_cache fs payload file ts created now true).1 file =
      some ⟨FileContent.wrapped ⟨payload, ts, "1.0", created⟩, now⟩ := by
  have hl := fsLookup_fsInsert_self fs file
    (⟨FileContent.wrapped ⟨payload, ts, "1.0", created⟩, now⟩ : FileEntry α)
  constructor
  · simp [load_cache, save_cache, hl]
  · simpa [save_cache] using hl

/-- C4: when credentials are present and the login flow fails, the program
removes both cache files (linuxdo_cookies.json and linuxdo_session.json) and
exits with code 1; when the username or password input is missing or empty
the process also exits with code 1. -/
theorem login_failure_exit (α : Type) (u p : Option String) (fs : FS α) :
    (pyTruthy u = true → pyTruthy p = true →
      main_exit u p false fs = (clear_caches fs, 1) ∧
      fsLookup (clear_caches fs) "linuxdo_cookies.json" = none ∧
      fsLookup (clear_caches fs) "linuxdo_session.json" = none) ∧
    ((pyTruthy u = false ∨ pyTruthy p = false) →
      ∀ loginOk : Bool, (main_exit u p loginOk fs).2 = 1) := by
  constructor
  · intro hu hp
    refine ⟨?_, ?_, ?_⟩
    · simp [main_exit, run_exit, hu, hp]
    · unfold clear_caches
      rw [fsLookup_fsRemove_ne _ _ _ (by decide)]
      exact fsLookup_fsRemove_self fs "linuxdo_cookies.json"
    · exact fsLookup_fsRemove_self _ "linuxdo_session.json"
  · intro hor loginOk
    rcases hor with h1 | h1 <;> simp [main_exit, h1]

/-- Witness for C4 on an empty store: a failed login exits 1 with both files
absent, and a missing username exits 1. -/
theorem login_failure_exit_witness :
    main_exit (some "alice") (some "pw") false ([] : FS String) = (clear_caches [], 1) ∧
    fsLookup (clear_caches ([] : FS String)) "linuxdo_cookies.json" = none ∧
    (main_exit none (some "pw") true ([] : FS String)).2 = 1 :=
  ⟨((login_failure_exit String (some "alice") (some "pw") []).1 rfl rfl).1,
    ((login_failure_exit String (some "alice") (some "pw") []).1 rfl rfl).2.1,
    (login_failure_exit String none (some "pw") []).2 (Or.inl rfl) true⟩

/-- C2: the clearance-cookie validity check returns true exactly when some
entry named cf_clearance has expires equal to -1 or strictly above the
current time; a cookie whose expires is currentTime - 10 is invalid (for any
clock at least 10), so the cached short-circuit of `handle_cloudflare` is
skipped and the polling path is taken. -/
theorem cf_cookie_validity (cookies : List Cookie) (now : Int) (env : CfEnv)
    (a t : Nat) :
    (is_cf_cookie_valid cookies now = true ↔
      ∃ c ∈ cookies, c.name = "cf_clearance" ∧
        (c.expires.getD 0 = -1 ∨ now < c.expires.getD 0)) ∧
    (10 ≤ now →
      is_cf_cookie_valid [⟨"cf_clearance", some (now - 10)⟩] now = false) ∧
    (10 ≤ env.now →
      (∀ c ∈ env.cachedCookies.getD [], c.expires.getD 0 = env.now - 10) →
      (handle_cloudflare env a t).usedCache = false) := by
  refine ⟨?_, ?_, ?_⟩
  · simp [is_cf_cookie_valid, cf_expiry_ok, List.any_eq_true]
  · intro h10
    simp [is_cf_cookie_valid, cf_expiry_ok]
    omega
  · intro h10 hall
    have hval : is_cf_cookie_valid (env.cachedCookies.getD []) env.now = false := by
      simp only [is_cf_cookie_valid, List.any_eq_false]
      intro c hc
      have hex := hall c hc
      simp [cf_expiry_ok, hex]
      omega
    unfold handle_cloudflare
    rw [hval]
    simp only [Bool.false_and]
    split_ifs <;> simp_all

/-- Witness for C2 at clock 1000: the ten-seconds-stale clearance cookie is
invalid and the cached short-circuit is not taken. -/
theorem cf_cookie_validity_witness :
    is_cf_cookie_valid [⟨"cf_clearance", some (1000 - 10)⟩] 1000 = false ∧
    (handle_cloudflare
        ⟨some [⟨"cf_clearance", some (990 : Int)⟩], 1000, false, "Home", 0, [], "Home"⟩
        8 180).usedCache = false :=
  ⟨(cf_cookie_validity [] 1000
      ⟨some [⟨"cf_clearance", some (990 : Int)⟩], 1000, false, "Home", 0, [], "Home"⟩
      8 180).2.1 (by norm_num),
    (cf_cookie_validity [] 1000
      ⟨some [⟨"cf_clearance", some (990 : Int)⟩], 1000, false, "Home", 0, [], "Home"⟩
      8 180).2.2 (by norm_num) (by decide)⟩

/-- C5: a function wrapped by the retry decorator that raises on all 3
attempts performs a 1-second backoff after each failure, logs the final
exception, and returns None instead of raising; an attempt that succeeds
(the 3rd after two failures) has its value returned after exactly the two
backoffs preceding the retries; and the caller loop over a topic batch
reaches every topic since the wrapper never raises. -/
theorem retry_decorator_behavior (α : Type) (f : Nat → Except String α) :
    ((∀ i, i < 3 → ∃ msg, f i = Except.error msg) →
      retry_decorator 3 f = ⟨none, 3, true⟩) ∧
    (∀ (m0 m1 : String) (v : α), f 0 = Except.error m0 → f 1 = Except.error m1 →
      f 2 = Except.ok v → retry_decorator 3 f = ⟨some v, 2, false⟩) ∧
    (∀ (topics : List String) (visit : String → Nat → Except String Unit),
      (click_topic_results topics visit).length = topics.length) := by
  refine ⟨?_, ?_, ?_⟩
  · intro hall
    obtain ⟨m0, h0⟩ := hall 0 (by omega)
    obtain ⟨m1, h1⟩ := hall 1 (by omega)
    obtain ⟨m2, h2⟩ := hall 2 (by omega)
    have hd : retry_decorator 3 f = retryRun [f 0, f 1, f 2] := rfl
    rw [hd, h0, h1, h2]
    simp [retryRun]
  · intro m0 m1 v h0 h1 h2
    have hd : retry_decorator 3 f = retryRun [f 0, f 1, f 2] := rfl
    rw [hd, h0, h1, h2]
    simp [retryRun]
  · intro topics visit
    simp [click_topic_results]

/-- Witness for C5: two failures then a success return the success value
after two backoffs; three failures return None after three backoffs with the
final error logged. -/
theorem retry_decorator_behavior_witness :
    retry_decorator 3
        (fun i => if i = 2 then Except.ok 42 else Except.error "boom") =
      ⟨some 42, 2, false⟩ ∧
    retry_decorator 3 (fun _ : Nat => (Except.error "boom" : Except String Nat)) =
      ⟨none, 3, true⟩ :=
  ⟨(retry_decorator_behavior Nat _).2.1 "boom" "boom" 42 rfl rfl rfl,
    (retry_decorator_behavior Nat _).1 (fun _ _ => ⟨"boom", rfl⟩)⟩

/-- C9: `check_login_status` treats a probe exception as an inconclusive
signal (an outer exception yields false; per-selector raises behave exactly
as absent elements), defaults to false when no signal is conclusive, and its
fallback tier declares tentative success exactly when the page is off the
interstitial and the page text contains the username case-insensitively or
the content exceeds 1000 characters. -/
theorem check_login_status_robust (p : LoginPage) :
    (p.outerRaise = true → check_login_status p = false) ∧
    check_login_status p =
      check_login_status { p with
        userSelectors := p.userSelectors.map dropRaised,
        loginSelectors := p.loginSelectors.map dropRaised } ∧
    (p.outerRaise = false → anyFound p.userSelectors = false →
      anyFound p.loginSelectors = false →
      (check_login_status p = true ↔
        loginTitleOk p.title = true ∧
          (containsSubstr p.content.toLower p.username.toLower = true ∨
            1000 < p.content.length))) := by
  refine ⟨?_, ?_, ?_⟩
  · intro hr
    simp [check_login_status, hr]
  · simp [check_login_status, anyFound_map_dropRaised]
  · intro hr hu hl
    by_cases h1 : loginTitleOk p.title
    · by_cases h2 : containsSubstr p.content.toLower p.username.toLower
      · simp [check_login_status, hr, hu, hl, h1, h2]
      · by_cases h3 : p.content.length > 1000
        · simp [check_login_status, hr, hu, hl, h1, h2, h3]
        · simp [check_login_status, hr, hu, hl, h1, h2, h3]
    · simp [check_login_status, hr, hu, hl, h1]

/-- Witness for C9: an outer probe exception yields not-logged-in, and on a
normal page with a raised selector the fallback tier matches its stated
condition. -/
theorem check_login_status_robust_witness :
    check_login_status
        ⟨[ProbeResult.raised], false, [ProbeResult.notFound], "x", "y", "u", true⟩ =
      false ∧
    (check_login_status
        ⟨[ProbeResult.raised], false, [ProbeResult.notFound], "Latest topics",
          "hello USER1 here", "user1", false⟩ = true ↔
      loginTitleOk "Latest topics" = true ∧
        (containsSubstr "hello USER1 here".toLower "user1".toLower = true ∨
          1000 < "hello USER1 here".length)) :=
  ⟨(check_login_status_robust _).1 rfl,
    (check_login_status_robust _).2.2 rfl (by decide) (by decide)⟩

/-- C1: with max_attempts 8 and timeout 180, the polling loop of
`handle_cloudflare` performs at most 8 iterations; its sleeps account for at
most 15 seconds per iteration performed; and on exception-free traces
started within the timeout it stops with at most one 15-second sleep beyond
the 180-second wall-clock bound, so the loop blocks past neither bound
beyond a single drawn sleep. -/
theorem handle_cloudflare_poll_bounds (env : CfEnv) :
    (handle_cloudflare env 8 180).pollIters ≤ 8 ∧
    ((∀ s ∈ env.steps, s.wait ≤ 15) →
      (handle_cloudflare env 8 180).pollElapsed ≤
        env.preElapsed + 15 * (handle_cloudflare env 8 180).pollIters) ∧
    ((∀ s ∈ env.steps, s.raises = false ∧ s.wait ≤ 15) → env.preElapsed ≤ 180 →
      (handle_cloudflare env 8 180).pollElapsed ≤ 195) := by
  rcases handle_cloudflare_cases env 8 180 with hc | ⟨hi, he, _⟩
  · rw [hc]
    refine ⟨by simp, fun _ => by simp, fun _ hpre => ?_⟩
    simp
    omega
  · refine ⟨?_, ?_, ?_⟩
    · rw [hi]
      calc (pollIter (env.steps.take 8) env.preElapsed 180).iters
          ≤ (env.steps.take 8).length := pollIter_iters_le _ _ _
        _ ≤ 8 := by
          simp [List.length_take]
    · intro hw
      rw [he, hi]
      exact pollIter_elapsed_sum _ _ _ (fun s hs => hw s (List.take_subset _ _ hs))
    · intro hws hpre
      rw [he]
      have hb := pollIter_elapsed_le (env.steps.take 8) env.preElapsed 180
        (fun s hs => hws s (List.take_subset _ _ hs)) hpre
      omega

/-- Witness for C1 at a one-iteration interstitial trace. -/
theorem handle_cloudflare_poll_bounds_witness :
    (handle_cloudflare ⟨none, 0, false, "x", 0, [⟨false, "请稍候…", 10⟩], "Linux DO"⟩
        8 180).pollIters ≤ 8 ∧
    (handle_cloudflare ⟨none, 0, false, "x", 0, [⟨false, "请稍候…", 10⟩], "Linux DO"⟩
        8 180).pollElapsed ≤ 195 :=
  ⟨(handle_cloudflare_poll_bounds _).1,
    (handle_cloudflare_poll_bounds
        ⟨none, 0, false, "x", 0, [⟨false, "请稍候…", 10⟩], "Linux DO"⟩).2.2
      (by decide) (by decide)⟩

end LinuxdoNin
